import Mathlib

/-
Verification of the mab recursive-descent parser (src/ast.rs, src/parser.rs).

The embedding translates the Rust source directly:
* `ast.rs` becomes the mutual inductive AST below; `Cow<str>` becomes
  `String`, `usize` ids become `Nat`.
* `parser.rs` becomes the parser functions below.  The Rust parsers are
  mutually recursive (chunk -> statement -> for-body chunk, expression ->
  table literal -> expression, ...); the embedding stratifies them with an
  explicit fuel level (`parsers : Nat -> Parsers`): at level 0 every parser
  reports `NoMatch` (fuel exhausted), and level `f+1` is one unfolding of
  every grammar rule over level `f`.  Every theorem either quantifies over
  the fuel or instantiates it with a value that is ample for the concrete
  input at hand.
* The combinator framework (`parser_core`: `ParseState`, `define_parser!`,
  `parse_first_of!`, `Optional`, `ZeroOrMore`, `Delimited*`, `Or`) and the
  token type (`tokenizer`) are code of this repository that is not under
  src/; they are modelled from the spec where so marked.
* The Rust `Result<(state, value), ParseAbort>` with
  `ParseAbort = NoMatch | Error(String)` is flattened into the three
  constructor `ParseResult` type.
* The process-wide atomic id counter (`ast.rs: gen_id`) is embedded by
  threading the counter through `ParseState` (`nextId`); a single-threaded
  parse run reads and bumps the counter exactly as `fetch_add` does.
-/

namespace Mab

/-- Modelled from the spec: the lexer's token kinds (tokenizer crate is not
under src/): keyword, identifier, operator, numeric literal kept as raw
text, resolved string literal, and parenthesis punctuation as used by
parser.rs. -/
inductive TokenKind where
  | Keyword (text : String)
  | Identifier (text : String)
  | Operator (text : String)
  | NumberLiteral (text : String)
  | StringTok (raw : String) (interpreted : String)
  | OpenParen
  | CloseParen
  deriving DecidableEq, Repr

/-- Modelled from the spec: a token carries a discriminated kind (positional
information, used only for diagnostics in the real lexer, is omitted: the
parser logic in parser.rs reads only `token.kind` and the Debug rendering). -/
structure Token where
  kind : TokenKind
  deriving DecidableEq, Repr

/-- Embedding of ast.rs `gen_id`: the process-wide counter advanced by one on
every allocation; the counter value is passed explicitly instead of living
in a global atomic, so one call returns the issued id and the new counter. -/
def gen_id (counter : Nat) : Nat × Nat := (counter, counter + 1)

/-- Modelled from the spec: the immutable token cursor of parser_core
(token sequence plus position), extended with the explicit id counter that
embeds the process-wide allocator state. -/
structure ParseState where
  tokens : List Token
  pos : Nat
  nextId : Nat
  deriving DecidableEq, Repr

def ParseState.new (tokens : List Token) (counter : Nat) : ParseState :=
  ⟨tokens, 0, counter⟩

def ParseState.peek (s : ParseState) : Option Token :=
  s.tokens[s.pos]?

def ParseState.advance (s : ParseState) (n : Nat) : ParseState :=
  { s with pos := s.pos + n }

def ParseState.genId (s : ParseState) : Nat × ParseState :=
  match gen_id s.nextId with
  | (i, c) => (i, { s with nextId := c })

/-- Flattening of parser_core's `Result<(ParseState, T), ParseAbort>`:
`Ok((state, value))`, `Err(NoMatch)`, `Err(Error(message))`. -/
inductive ParseResult (α : Type) where
  | Ok (state : ParseState) (value : α)
  | NoMatch
  | Error (message : String)
  deriving Repr

/-- ast.rs `UnaryOpKind`. -/
inductive UnaryOpKind where
  | Negate
  | BooleanNot
  | Length
  deriving DecidableEq, Repr

/-- ast.rs `BinaryOpKind`. -/
inductive BinaryOpKind where
  | Add
  | Subtract
  | Multiply
  | Divide
  | Exponent
  | Concat
  deriving DecidableEq, Repr

/-- ast.rs `UnaryOpKind::precedence`: constant 11. -/
def UnaryOpKind.precedence (_ : UnaryOpKind) : Nat := 11

/-- ast.rs `BinaryOpKind::precedence`. -/
def BinaryOpKind.precedence : BinaryOpKind → Nat
  | .Concat => 8
  | .Add => 9
  | .Subtract => 9
  | .Multiply => 10
  | .Divide => 10
  | .Exponent => 12

/-- ast.rs `BinaryOpKind::is_right_associative`. -/
def BinaryOpKind.is_right_associative : BinaryOpKind → Bool
  | .Exponent => true
  | .Concat => true
  | _ => false

/-- Modelled from the spec: the lexer's `StringLiteral` value carrying raw
and interpreted forms (tokenizer crate is not under src/). -/
structure StringLiteral where
  raw : String
  interpreted : String
  deriving DecidableEq, Repr

mutual

/-- ast.rs `Expression`: tagged union, every variant carries an id. -/
inductive Expression where
  | Nil (id : Nat)
  | Bool (id : Nat) (value : Bool)
  | Number (id : Nat) (value : String)
  | String (id : Nat) (value : StringLiteral)
  | VarArg (id : Nat)
  | Table (id : Nat) (value : TableLiteral)
  | FunctionCall (id : Nat) (value : FunctionCall)
  | Name (id : Nat) (value : String)
  | ParenExpression (id : Nat) (value : Expression)
  | UnaryOp (id : Nat) (value : UnaryOp)
  | BinaryOp (id : Nat) (value : BinaryOp)

/-- ast.rs `TableKey`: bracketed expression key or bare identifier key. -/
inductive TableKey where
  | Expression (value : Expression)
  | Name (value : String)

/-- ast.rs `TableLiteral`: ordered (optional key, value) pairs. -/
inductive TableLiteral where
  | mk (items : List (Option TableKey × Expression))

/-- ast.rs `FunctionCall`. -/
inductive FunctionCall where
  | mk (name_expression : Expression) (arguments : List Expression)

/-- ast.rs `UnaryOp`. -/
inductive UnaryOp where
  | mk (operator : UnaryOpKind) (argument : Expression)

/-- ast.rs `BinaryOp`. -/
inductive BinaryOp where
  | mk (operator : BinaryOpKind) (left : Expression) (right : Expression)

end

def FunctionCall.name_expression : FunctionCall → Expression
  | .mk e _ => e

def FunctionCall.arguments : FunctionCall → List Expression
  | .mk _ a => a

def TableLiteral.items : TableLiteral → List (Option TableKey × Expression)
  | .mk l => l

/-- Discriminant test used to state that a produced expression is (not) a
`BinaryOp` node. -/
def isBinaryOp : Expression → Bool
  | .BinaryOp _ _ => true
  | _ => false

/-- Discriminant test used to state that an expression is a `Name` node. -/
def isNameExpr : Expression → Bool
  | .Name _ _ => true
  | _ => false

/-- ast.rs `Assignment`. -/
structure Assignment where
  names : List String
  values : List Expression

/-- ast.rs `LocalAssignment`. -/
structure LocalAssignment where
  names : List String
  values : List Expression

mutual

/-- ast.rs `Statement`: tagged union, every variant carries an id. -/
inductive Statement where
  | Assignment (id : Nat) (value : Assignment)
  | LocalAssignment (id : Nat) (value : LocalAssignment)
  | FunctionCall (id : Nat) (value : FunctionCall)
  | NumericFor (id : Nat) (value : NumericFor)
  | GenericFor (id : Nat) (value : GenericFor)
  | IfStatement (id : Nat) (value : IfStatement)
  | WhileLoop (id : Nat) (value : WhileLoop)
  | RepeatLoop (id : Nat) (value : RepeatLoop)
  | FunctionDeclaration (id : Nat) (value : FunctionDeclaration)

/-- ast.rs `NumericFor` (`end` is a Lean keyword, hence `end_`). -/
inductive NumericFor where
  | mk (var : String) (start : Expression) (end_ : Expression)
      (step : Option Expression) (body : Chunk)

/-- ast.rs `GenericFor`. -/
inductive GenericFor where
  | mk (vars : List String) (item_source : List Expression) (body : Chunk)

/-- ast.rs `IfStatement`. -/
inductive IfStatement where
  | mk (condition : Expression) (body : Chunk)
      (else_if_branches : List (Expression × Chunk)) (else_branch : Option Chunk)

/-- ast.rs `WhileLoop`. -/
inductive WhileLoop where
  | mk (condition : Expression) (body : Chunk)

/-- ast.rs `RepeatLoop`. -/
inductive RepeatLoop where
  | mk (condition : Expression) (body : Chunk)

/-- ast.rs `FunctionDeclaration` (`local` is a Lean-adjacent keyword, hence
`local_`). -/
inductive FunctionDeclaration where
  | mk (name : String) (body : Chunk) (parameters : List String) (local_ : Bool)

/-- ast.rs `Chunk`: ordered statement sequence. -/
inductive Chunk where
  | mk (statements : List Statement)

end

def Chunk.statements : Chunk → List Statement
  | .mk l => l

/- ------------------------------------------------------------------
Combinator primitives.
------------------------------------------------------------------ -/

/-- parser.rs `ParseToken`: consume one token whose kind equals the given
kind, otherwise `NoMatch`. -/
def ParseToken (kind : TokenKind) (s : ParseState) : ParseResult Token :=
  match s.peek with
  | some token => if token.kind = kind then .Ok (s.advance 1) token else .NoMatch
  | none => .NoMatch

/-- parser.rs `ParseNumber`: consume one `NumberLiteral` token, yielding its
raw text. -/
def ParseNumber (s : ParseState) : ParseResult String :=
  match s.peek with
  | some token =>
    match token.kind with
    | .NumberLiteral value => .Ok (s.advance 1) value
    | _ => .NoMatch
  | none => .NoMatch

/-- parser.rs `ParseIdentifier`: consume one `Identifier` token, yielding its
text. -/
def ParseIdentifier (s : ParseState) : ParseResult String :=
  match s.peek with
  | some token =>
    match token.kind with
    | .Identifier name => .Ok (s.advance 1) name
    | _ => .NoMatch
  | none => .NoMatch

/-- parser.rs `ParseKeyword`: `ParseToken(Keyword(text))` mapped to unit. -/
def ParseKeyword (text : String) (s : ParseState) : ParseResult Unit :=
  match ParseToken (.Keyword text) s with
  | .Ok s' _ => .Ok s' ()
  | .NoMatch => .NoMatch
  | .Error m => .Error m

/-- parser.rs `ParseOperator`: `ParseToken(Operator(text))` mapped to unit. -/
def ParseOperator (text : String) (s : ParseState) : ParseResult Unit :=
  match ParseToken (.Operator text) s with
  | .Ok s' _ => .Ok s' ()
  | .NoMatch => .NoMatch
  | .Error m => .Error m

/-- Modelled from the spec: parser_core `Optional(P)` — on `NoMatch` succeed
with `none` and the unchanged cursor, on `Error` propagate. -/
def Optional {α : Type} (p : ParseState → ParseResult α) (s : ParseState) :
    ParseResult (Option α) :=
  match p s with
  | .Ok s' v => .Ok s' (some v)
  | .NoMatch => .Ok s none
  | .Error m => .Error m

/-- Modelled from the spec: parser_core `Or` — try the alternatives in
order, return the first success, propagate an `Error` immediately. -/
def FirstOf {α : Type} (p q : ParseState → ParseResult α) (s : ParseState) :
    ParseResult α :=
  match p s with
  | .NoMatch => q s
  | r => r

/-- Modelled from the spec: parser_core `ZeroOrMore(P)` — repeat `P` until it
reports `NoMatch`, propagating any `Error`.  The extra `Nat` argument bounds
the number of iterations (the Rust loop needs no bound because every parser
passed to it consumes input on success); callers supply a bound larger than
the remaining token count. -/
def ZeroOrMore {α : Type} (p : ParseState → ParseResult α) :
    Nat → ParseState → ParseResult (List α)
  | 0, s => .Ok s []
  | n + 1, s =>
    match p s with
    | .Ok s' v =>
      match ZeroOrMore p n s' with
      | .Ok s'' vs => .Ok s'' (v :: vs)
      | .NoMatch => .NoMatch
      | .Error m => .Error m
    | .NoMatch => .Ok s []
    | .Error m => .Error m

/-- Modelled from the spec: the `(Sep, P)` repetition shared by the delimited
combinators.  After a successful separator, a `P` mismatch is an `Error`
unless `allowTrailing` is set, in which case the dangling separator ends the
list. -/
def DelimitedMore {α β : Type} (p : ParseState → ParseResult α)
    (sep : ParseState → ParseResult β) (allowTrailing : Bool) :
    Nat → ParseState → ParseResult (List α)
  | 0, s => .Ok s []
  | n + 1, s =>
    match sep s with
    | .NoMatch => .Ok s []
    | .Error m => .Error m
    | .Ok s₁ _ =>
      match p s₁ with
      | .Ok s₂ v =>
        match DelimitedMore p sep allowTrailing n s₂ with
        | .Ok s₃ vs => .Ok s₃ (v :: vs)
        | .NoMatch => .NoMatch
        | .Error m => .Error m
      | .NoMatch =>
        if allowTrailing then .Ok s₁ []
        else .Error "Expected an item after a delimiter"
      | .Error m => .Error m

/-- Modelled from the spec: parser_core `DelimitedZeroOrMore(P, Sep,
allow_trailing)` — an initial `P` mismatch yields the empty list. -/
def DelimitedZeroOrMore {α β : Type} (p : ParseState → ParseResult α)
    (sep : ParseState → ParseResult β) (allowTrailing : Bool)
    (n : Nat) (s : ParseState) : ParseResult (List α) :=
  match p s with
  | .NoMatch => .Ok s []
  | .Error m => .Error m
  | .Ok s₁ v =>
    match DelimitedMore p sep allowTrailing n s₁ with
    | .Ok s₂ vs => .Ok s₂ (v :: vs)
    | .NoMatch => .NoMatch
    | .Error m => .Error m

/-- Modelled from the spec: parser_core `DelimitedOneOrMore(P, Sep)` — at
least one item, no trailing separator. -/
def DelimitedOneOrMore {α β : Type} (p : ParseState → ParseResult α)
    (sep : ParseState → ParseResult β) (n : Nat) (s : ParseState) :
    ParseResult (List α) :=
  match p s with
  | .NoMatch => .NoMatch
  | .Error m => .Error m
  | .Ok s₁ v =>
    match DelimitedMore p sep false n s₁ with
    | .Ok s₂ vs => .Ok s₂ (v :: vs)
    | .NoMatch => .NoMatch
    | .Error m => .Error m

/-- Modelled from the spec: the id-allocating wrap performed by the
`parse_first_of!` macro and by direct node construction — draw a fresh id
with `gen_id` and build the node from it. -/
def withId {α : Type} (s : ParseState) (k : Nat → α) : ParseResult α :=
  match s.genId with
  | (i, s') => .Ok s' (k i)

/- ------------------------------------------------------------------
Grammar rules (parser.rs).  `prev : Parsers` holds the next-lower fuel
level of the mutually recursive entry points `ParseExpression` and
`ParseChunk`; every other rule is defined at the same level as its caller.
------------------------------------------------------------------ -/

/-- The two recursion knots of the grammar: expression parsing (reached
again through table literals and call arguments) and chunk parsing (reached
again through statement bodies). -/
structure Parsers where
  expression : ParseState → ParseResult Expression
  chunk : ParseState → ParseResult Chunk

/-- parser.rs `ParseFunctionCall`: `Name ( explist )`; the callee is always
wrapped as an `Expression::Name` node with a fresh id. -/
def ParseFunctionCallStep (prev : Parsers) (s : ParseState) :
    ParseResult FunctionCall :=
  match ParseIdentifier s with
  | .NoMatch => .NoMatch
  | .Error m => .Error m
  | .Ok s₁ name =>
    match ParseToken .OpenParen s₁ with
    | .NoMatch => .NoMatch
    | .Error m => .Error m
    | .Ok s₂ _ =>
      match DelimitedZeroOrMore prev.expression (ParseOperator ",") false
          (s₂.tokens.length + 1) s₂ with
      | .NoMatch => .NoMatch
      | .Error m => .Error m
      | .Ok s₃ args =>
        match ParseToken .CloseParen s₃ with
        | .NoMatch => .NoMatch
        | .Error m => .Error m
        | .Ok s₄ _ =>
          match s₄.genId with
          | (i, s₅) => .Ok s₅ (FunctionCall.mk (Expression.Name i name) args)

/-- parser.rs `ParseTableKey`: a bare identifier key, else `[ expression ]`,
followed by `=`.  The source builds the key as an `Expression` and stores it
as an `ast::TableKey`; the conversion (missing from src/) is modelled from
the spec: identifier sugar becomes `TableKey::Name`, a bracketed expression
becomes `TableKey::Expression`. -/
def ParseTableKeyStep (prev : Parsers) (s : ParseState) :
    ParseResult TableKey :=
  match Optional ParseIdentifier s with
  | .NoMatch => .NoMatch
  | .Error m => .Error m
  | .Ok s₁ (some name) =>
    match ParseOperator "=" s₁ with
    | .NoMatch => .NoMatch
    | .Error m => .Error m
    | .Ok s₂ _ => .Ok s₂ (TableKey.Name name)
  | .Ok s₁ none =>
    match ParseOperator "[" s₁ with
    | .NoMatch => .NoMatch
    | .Error m => .Error m
    | .Ok s₂ _ =>
      match prev.expression s₂ with
      | .NoMatch => .NoMatch
      | .Error m => .Error m
      | .Ok s₃ key =>
        match ParseOperator "]" s₃ with
        | .NoMatch => .NoMatch
        | .Error m => .Error m
        | .Ok s₄ _ =>
          match ParseOperator "=" s₄ with
          | .NoMatch => .NoMatch
          | .Error m => .Error m
          | .Ok s₅ _ => .Ok s₅ (TableKey.Expression key)

/-- parser.rs `ParseTableValue`: `Optional(TableKey), Expression`. -/
def ParseTableValueStep (prev : Parsers) (s : ParseState) :
    ParseResult (Option TableKey × Expression) :=
  match Optional (ParseTableKeyStep prev) s with
  | .NoMatch => .NoMatch
  | .Error m => .Error m
  | .Ok s₁ key =>
    match prev.expression s₁ with
    | .NoMatch => .NoMatch
    | .Error m => .Error m
    | .Ok s₂ value => .Ok s₂ (key, value)

/-- parser.rs `ParseTableLiteral`: `{` then
`DelimitedZeroOrMore(TableValue, Or[",", ";"], allow_trailing = true)` then
`}`. -/
def ParseTableLiteralStep (prev : Parsers) (s : ParseState) :
    ParseResult TableLiteral :=
  match ParseOperator "\x7b" s with
  | .NoMatch => .NoMatch
  | .Error m => .Error m
  | .Ok s₁ _ =>
    match DelimitedZeroOrMore (ParseTableValueStep prev)
        (FirstOf (ParseOperator ",") (ParseOperator ";")) true
        (s₁.tokens.length + 1) s₁ with
    | .NoMatch => .NoMatch
    | .Error m => .Error m
    | .Ok s₂ items =>
      match ParseOperator "\x7d" s₂ with
      | .NoMatch => .NoMatch
      | .Error m => .Error m
      | .Ok s₃ _ => .Ok s₃ (TableLiteral.mk items)

/-- parser.rs `ParseExpression`: `parse_first_of!` over `ParseNumber`,
`ParseFunctionCall`, `ParseIdentifier`, `ParseTableLiteral`, each success
wrapped in the corresponding `Expression` variant with a fresh id. -/
def ParseExpressionStep (prev : Parsers) (s : ParseState) :
    ParseResult Expression :=
  match ParseNumber s with
  | .Ok s₁ v => withId s₁ (fun i => Expression.Number i v)
  | .Error m => .Error m
  | .NoMatch =>
    match ParseFunctionCallStep prev s with
    | .Ok s₁ v => withId s₁ (fun i => Expression.FunctionCall i v)
    | .Error m => .Error m
    | .NoMatch =>
      match ParseIdentifier s with
      | .Ok s₁ v => withId s₁ (fun i => Expression.Name i v)
      | .Error m => .Error m
      | .NoMatch =>
        match ParseTableLiteralStep prev s with
        | .Ok s₁ v => withId s₁ (fun i => Expression.Table i v)
        | .Error m => .Error m
        | .NoMatch => .NoMatch

/-- parser.rs `ParseLocalAssignment`: `local namelist [= explist]`; a failed
`=` lookup (the Rust `Err(_)` arm) leaves the value list empty. -/
def ParseLocalAssignmentStep (prev : Parsers) (s : ParseState) :
    ParseResult LocalAssignment :=
  match ParseKeyword "local" s with
  | .NoMatch => .NoMatch
  | .Error m => .Error m
  | .Ok s₁ _ =>
    match DelimitedOneOrMore ParseIdentifier (ParseOperator ",")
        (s₁.tokens.length + 1) s₁ with
    | .NoMatch => .NoMatch
    | .Error m => .Error m
    | .Ok s₂ names =>
      match ParseOperator "=" s₂ with
      | .Ok s₃ _ =>
        match DelimitedOneOrMore prev.expression (ParseOperator ",")
            (s₃.tokens.length + 1) s₃ with
        | .NoMatch => .NoMatch
        | .Error m => .Error m
        | .Ok s₄ values => .Ok s₄ (LocalAssignment.mk names values)
      | _ => .Ok s₂ (LocalAssignment.mk names [])

/-- The tail of `ParseNumericFor`: `do chunk end` and node construction. -/
def ParseNumericForFinish (prev : Parsers) (var : String)
    (start end_ : Expression) (step : Option Expression) (s : ParseState) :
    ParseResult NumericFor :=
  match ParseKeyword "do" s with
  | .NoMatch => .NoMatch
  | .Error m => .Error m
  | .Ok s₁ _ =>
    match prev.chunk s₁ with
    | .NoMatch => .NoMatch
    | .Error m => .Error m
    | .Ok s₂ body =>
      match ParseKeyword "end" s₂ with
      | .NoMatch => .NoMatch
      | .Error m => .Error m
      | .Ok s₃ _ => .Ok s₃ (NumericFor.mk var start end_ step body)

/-- parser.rs `ParseNumericFor`: `for Name = exp , exp` then the step
lookahead (`,` parses a third bound, the keyword `do` means no step, and any
other token — or end of stream — reports `NoMatch`), then `do chunk end`. -/
def ParseNumericForStep (prev : Parsers) (s : ParseState) :
    ParseResult NumericFor :=
  match ParseKeyword "for" s with
  | .NoMatch => .NoMatch
  | .Error m => .Error m
  | .Ok s₁ _ =>
    match ParseIdentifier s₁ with
    | .NoMatch => .NoMatch
    | .Error m => .Error m
    | .Ok s₂ var =>
      match ParseOperator "=" s₂ with
      | .NoMatch => .NoMatch
      | .Error m => .Error m
      | .Ok s₃ _ =>
        match prev.expression s₃ with
        | .NoMatch => .NoMatch
        | .Error m => .Error m
        | .Ok s₄ start =>
          match ParseOperator "," s₄ with
          | .NoMatch => .NoMatch
          | .Error m => .Error m
          | .Ok s₅ _ =>
            match prev.expression s₅ with
            | .NoMatch => .NoMatch
            | .Error m => .Error m
            | .Ok s₆ end_ =>
              match s₆.peek with
              | some token =>
                match token.kind with
                | .Operator op =>
                  if op = "," then
                    match prev.expression (s₆.advance 1) with
                    | .NoMatch => .NoMatch
                    | .Error m => .Error m
                    | .Ok s₇ step =>
                      ParseNumericForFinish prev var start end_ (some step) s₇
                  else .NoMatch
                | .Keyword kw =>
                  if kw = "do" then
                    ParseNumericForFinish prev var start end_ none s₆
                  else .NoMatch
                | _ => .NoMatch
              | none => .NoMatch

/-- parser.rs `ParseWhileLoop`: `while exp do chunk end`. -/
def ParseWhileLoopStep (prev : Parsers) (s : ParseState) :
    ParseResult WhileLoop :=
  match ParseKeyword "while" s with
  | .NoMatch => .NoMatch
  | .Error m => .Error m
  | .Ok s₁ _ =>
    match prev.expression s₁ with
    | .NoMatch => .NoMatch
    | .Error m => .Error m
    | .Ok s₂ condition =>
      match ParseKeyword "do" s₂ with
      | .NoMatch => .NoMatch
      | .Error m => .Error m
      | .Ok s₃ _ =>
        match prev.chunk s₃ with
        | .NoMatch => .NoMatch
        | .Error m => .Error m
        | .Ok s₄ body =>
          match ParseKeyword "end" s₄ with
          | .NoMatch => .NoMatch
          | .Error m => .Error m
          | .Ok s₅ _ => .Ok s₅ (WhileLoop.mk condition body)

/-- parser.rs `ParseRepeatLoop`: `repeat chunk until exp`. -/
def ParseRepeatLoopStep (prev : Parsers) (s : ParseState) :
    ParseResult RepeatLoop :=
  match ParseKeyword "repeat" s with
  | .NoMatch => .NoMatch
  | .Error m => .Error m
  | .Ok s₁ _ =>
    match prev.chunk s₁ with
    | .NoMatch => .NoMatch
    | .Error m => .Error m
    | .Ok s₂ body =>
      match ParseKeyword "until" s₂ with
      | .NoMatch => .NoMatch
      | .Error m => .Error m
      | .Ok s₃ _ =>
        match prev.expression s₃ with
        | .NoMatch => .NoMatch
        | .Error m => .Error m
        | .Ok s₄ condition => .Ok s₄ (RepeatLoop.mk condition body)

/-- parser.rs `ParseFunctionDeclaration`: `[local] function Name ( params )
chunk end`. -/
def ParseFunctionDeclarationStep (prev : Parsers) (s : ParseState) :
    ParseResult FunctionDeclaration :=
  match Optional (ParseKeyword "local") s with
  | .NoMatch => .NoMatch
  | .Error m => .Error m
  | .Ok s₁ localKw =>
    match ParseKeyword "function" s₁ with
    | .NoMatch => .NoMatch
    | .Error m => .Error m
    | .Ok s₂ _ =>
      match ParseIdentifier s₂ with
      | .NoMatch => .NoMatch
      | .Error m => .Error m
      | .Ok s₃ name =>
        match ParseToken .OpenParen s₃ with
        | .NoMatch => .NoMatch
        | .Error m => .Error m
        | .Ok s₄ _ =>
          match DelimitedZeroOrMore ParseIdentifier (ParseOperator ",") false
              (s₄.tokens.length + 1) s₄ with
          | .NoMatch => .NoMatch
          | .Error m => .Error m
          | .Ok s₅ parameters =>
            match ParseToken .CloseParen s₅ with
            | .NoMatch => .NoMatch
            | .Error m => .Error m
            | .Ok s₆ _ =>
              match prev.chunk s₆ with
              | .NoMatch => .NoMatch
              | .Error m => .Error m
              | .Ok s₇ body =>
                match ParseKeyword "end" s₇ with
                | .NoMatch => .NoMatch
                | .Error m => .Error m
                | .Ok s₈ _ =>
                  .Ok s₈ (FunctionDeclaration.mk name body parameters
                    localKw.isSome)

/-- parser.rs `ParseStatement`: `parse_first_of!` over exactly six
alternatives, in source order — local-assignment, function-call,
numeric-for, while-loop, repeat-loop, function-declaration — each success
wrapped in the corresponding `Statement` variant with a fresh id. -/
def ParseStatementStep (prev : Parsers) (s : ParseState) :
    ParseResult Statement :=
  match ParseLocalAssignmentStep prev s with
  | .Ok s₁ v => withId s₁ (fun i => Statement.LocalAssignment i v)
  | .Error m => .Error m
  | .NoMatch =>
    match ParseFunctionCallStep prev s with
    | .Ok s₁ v => withId s₁ (fun i => Statement.FunctionCall i v)
    | .Error m => .Error m
    | .NoMatch =>
      match ParseNumericForStep prev s with
      | .Ok s₁ v => withId s₁ (fun i => Statement.NumericFor i v)
      | .Error m => .Error m
      | .NoMatch =>
        match ParseWhileLoopStep prev s with
        | .Ok s₁ v => withId s₁ (fun i => Statement.WhileLoop i v)
        | .Error m => .Error m
        | .NoMatch =>
          match ParseRepeatLoopStep prev s with
          | .Ok s₁ v => withId s₁ (fun i => Statement.RepeatLoop i v)
          | .Error m => .Error m
          | .NoMatch =>
            match ParseFunctionDeclarationStep prev s with
            | .Ok s₁ v => withId s₁ (fun i => Statement.FunctionDeclaration i v)
            | .Error m => .Error m
            | .NoMatch => .NoMatch

/-- parser.rs `ParseChunk`: `ZeroOrMore(ParseStatement)` wrapped into a
`Chunk`. -/
def ParseChunkStep (prev : Parsers) (s : ParseState) : ParseResult Chunk :=
  match ZeroOrMore (ParseStatementStep prev) (s.tokens.length + 1) s with
  | .Ok s' statements => .Ok s' (Chunk.mk statements)
  | .NoMatch => .NoMatch
  | .Error m => .Error m

/-- The fuel-stratified tower of parser levels: level 0 is the exhausted
parser (everything `NoMatch`), level `f + 1` unfolds every rule once over
level `f`. -/
def parsers : Nat → Parsers
  | 0 => ⟨fun _ => .NoMatch, fun _ => .NoMatch⟩
  | f + 1 => ⟨ParseExpressionStep (parsers f), ParseChunkStep (parsers f)⟩

def ParseExpression (fuel : Nat) : ParseState → ParseResult Expression :=
  (parsers fuel).expression

def ParseChunk (fuel : Nat) : ParseState → ParseResult Chunk :=
  (parsers fuel).chunk

def ParseStatement (fuel : Nat) : ParseState → ParseResult Statement :=
  ParseStatementStep (parsers fuel)

def ParseFunctionCall (fuel : Nat) : ParseState → ParseResult FunctionCall :=
  ParseFunctionCallStep (parsers fuel)

def ParseLocalAssignment (fuel : Nat) :
    ParseState → ParseResult LocalAssignment :=
  ParseLocalAssignmentStep (parsers fuel)

def ParseNumericFor (fuel : Nat) : ParseState → ParseResult NumericFor :=
  ParseNumericForStep (parsers fuel)

def ParseTableLiteral (fuel : Nat) : ParseState → ParseResult TableLiteral :=
  ParseTableLiteralStep (parsers fuel)

/-- The Debug rendering of a token used in the leftover-token diagnostic
(parser.rs formats the token with `{:?}`; the embedding renders the kind). -/
def debugToken : Token → String
  | ⟨.Keyword text⟩ => "Keyword(" ++ text ++ ")"
  | ⟨.Identifier text⟩ => "Identifier(" ++ text ++ ")"
  | ⟨.Operator text⟩ => "Operator(" ++ text ++ ")"
  | ⟨.NumberLiteral text⟩ => "NumberLiteral(" ++ text ++ ")"
  | ⟨.StringTok raw _⟩ => "StringLiteral(" ++ raw ++ ")"
  | ⟨.OpenParen⟩ => "OpenParen"
  | ⟨.CloseParen⟩ => "CloseParen"

/-- The message parser.rs produces for a token left over after the chunk. -/
def leftoverMessage (token : Token) : String :=
  "A token was left at the end of the stream: " ++ debugToken token

/-- parser.rs `parse_from_tokens`: run the chunk parser from position 0,
convert `NoMatch` into the generic diagnostic, fail on any leftover token
naming it, otherwise return the chunk.  `counter` is the value of the
process-wide id counter when the call starts. -/
def parse_from_tokens (fuel : Nat) (tokens : List Token) (counter : Nat) :
    Except String Chunk :=
  match ParseChunk fuel (ParseState.new tokens counter) with
  | .NoMatch => .error "No error reported"
  | .Error message => .error message
  | .Ok s chunk =>
    match s.peek with
    | some token => .error (leftoverMessage token)
    | none => .ok chunk

/- ------------------------------------------------------------------
Concrete token streams for the testable properties, and the model of an
id-allocation run.
------------------------------------------------------------------ -/

def kwTok (text : String) : Token := ⟨.Keyword text⟩

def identTok (text : String) : Token := ⟨.Identifier text⟩

def opTok (text : String) : Token := ⟨.Operator text⟩

def numTok (text : String) : Token := ⟨.NumberLiteral text⟩

/-- The token stream of `1 + 2 * 3`. -/
def toksPrecedence : List Token :=
  [numTok "1", opTok "+", numTok "2", opTok "*", numTok "3"]

/-- The token stream of `if x then end`. -/
def toksIfStatement : List Token :=
  [kwTok "if", identTok "x", kwTok "then", kwTok "end"]

/-- The token stream of the generic loop `for x in t do end`. -/
def toksGenericFor : List Token :=
  [kwTok "for", identTok "x", kwTok "in", identTok "t", kwTok "do", kwTok "end"]

/-- The token stream of `local x = 1`. -/
def toksLocalAssign : List Token :=
  [kwTok "local", identTok "x", opTok "=", numTok "1"]

/-- The token stream of the call `f()`. -/
def toksCallOnly : List Token :=
  [identTok "f", ⟨.OpenParen⟩, ⟨.CloseParen⟩]

/-- The token stream of `for i = 1, 2 do end`. -/
def toksNumericFor : List Token :=
  [kwTok "for", identTok "i", opTok "=", numTok "1", opTok ",", numTok "2",
    kwTok "do", kwTok "end"]

/-- The token stream of `while x do end`. -/
def toksWhile : List Token :=
  [kwTok "while", identTok "x", kwTok "do", kwTok "end"]

/-- The token stream of `repeat until x`. -/
def toksRepeat : List Token :=
  [kwTok "repeat", kwTok "until", identTok "x"]

/-- The token stream of `function f() end`. -/
def toksFunDecl : List Token :=
  [kwTok "function", identTok "f", ⟨.OpenParen⟩, ⟨.CloseParen⟩, kwTok "end"]

/-- The token stream of `for i = 1, 2, 3 do end`. -/
def toksForStep3 : List Token :=
  [kwTok "for", identTok "i", opTok "=", numTok "1", opTok ",", numTok "2",
    opTok ",", numTok "3", kwTok "do", kwTok "end"]

/-- The token stream of `for i = 1, 2 ;` — after the two bounds the next
token is neither `,` nor the keyword `do`. -/
def toksForSemi : List Token :=
  [kwTok "for", identTok "i", opTok "=", numTok "1", opTok ",", numTok "2",
    opTok ";"]

/-- The token stream of `for i = 1, 2 then` — a keyword other than `do`
after the two bounds. -/
def toksForThen : List Token :=
  [kwTok "for", identTok "i", opTok "=", numTok "1", opTok ",", numTok "2",
    kwTok "then"]

/-- The token stream of `for i = 1, 2` — the stream ends right after the two
bounds. -/
def toksForEos : List Token :=
  [kwTok "for", identTok "i", opTok "=", numTok "1", opTok ",", numTok "2"]

/-- The token stream of `for i = 1, 2, 3, 4 do end`. -/
def toksForFour : List Token :=
  [kwTok "for", identTok "i", opTok "=", numTok "1", opTok ",", numTok "2",
    opTok ",", numTok "3", opTok ",", numTok "4", kwTok "do", kwTok "end"]

/-- The token stream of `f()` followed by a stray `)`. -/
def toksStray : List Token :=
  [identTok "f", ⟨.OpenParen⟩, ⟨.CloseParen⟩, ⟨.CloseParen⟩]

/-- The token stream of the table literal with trailing separator
`\x7b1,2,3,\x7d`. -/
def toksTableTrailing : List Token :=
  [opTok "\x7b", numTok "1", opTok ",", numTok "2", opTok ",", numTok "3",
    opTok ",", opTok "\x7d"]

/-- The token stream of the table literal `\x7b1,2,3\x7d`. -/
def toksTablePlain : List Token :=
  [opTok "\x7b", numTok "1", opTok ",", numTok "2", opTok ",", numTok "3",
    opTok "\x7d"]

/-- The table literal value both table streams produce: three positional
entries in source order. -/
def tableOneTwoThree : TableLiteral :=
  TableLiteral.mk
    [(none, Expression.Number 1 "1"), (none, Expression.Number 2 "2"),
      (none, Expression.Number 3 "3")]

/-- The chunk produced by parsing `f()` from a fresh state with counter 1. -/
def callChunk : Chunk :=
  Chunk.mk
    [Statement.FunctionCall 2 (FunctionCall.mk (Expression.Name 1 "f") [])]

/-- The id counter after a run of `k` consecutive `gen_id` allocations
starting from counter value `c` (the `fetch_add` post-state). -/
def counterAfter : Nat → Nat → Nat
  | c, 0 => c
  | c, k + 1 => counterAfter (gen_id c).2 k

/-- Modelled from the spec: the ids a parse run issues are the results of
its consecutive `gen_id` calls — `idsIssued c k` is the id list of a run
that performs `k` allocations starting from counter value `c` (the
allocation sites themselves live in the parser_core macros, which are not
under src/). -/
def idsIssued : Nat → Nat → List Nat
  | _, 0 => []
  | c, k + 1 => (gen_id c).1 :: idsIssued (gen_id c).2 k

/- ------------------------------------------------------------------
Helper lemmas.
------------------------------------------------------------------ -/

/-- A `ZeroOrMore` repetition never reports `NoMatch`: it converts the
repeated parser's `NoMatch` into the end of the list and only passes
through successes and errors. -/
theorem ZeroOrMore_ok_or_error {α : Type} (p : ParseState → ParseResult α) :
    ∀ (n : Nat) (s : ParseState),
      (∃ s' vs, ZeroOrMore p n s = .Ok s' vs) ∨
      (∃ m, ZeroOrMore p n s = .Error m) := by
  intro n
  induction n with
  | zero => intro s; exact .inl ⟨s, [], rfl⟩
  | succ n ih =>
    intro s
    cases hp : p s with
    | Ok s₁ v =>
      rcases ih s₁ with ⟨s₂, vs, h⟩ | ⟨m, h⟩
      · exact .inl ⟨s₂, v :: vs, by simp [ZeroOrMore, hp, h]⟩
      · exact .inr ⟨m, by simp [ZeroOrMore, hp, h]⟩
    | NoMatch => exact .inl ⟨s, [], by simp [ZeroOrMore, hp]⟩
    | Error m => exact .inr ⟨m, by simp [ZeroOrMore, hp]⟩

/-- An id run issues the consecutive interval starting at the initial
counter. -/
theorem idsIssued_eq_range' :
    ∀ (k c : Nat), idsIssued c k = List.range' c k := by
  intro k
  induction k with
  | zero => intro c; rfl
  | succ k ih => intro c; simp [idsIssued, gen_id, List.range', ih]

/-- The counter after a run of `k` allocations is the initial counter plus
`k`. -/
theorem counterAfter_eq_add : ∀ (k c : Nat), counterAfter c k = c + k := by
  intro k
  induction k with
  | zero => intro c; rfl
  | succ k ih => intro c; simp [counterAfter, gen_id, ih]; omega

/- ------------------------------------------------------------------
Claim theorems.
------------------------------------------------------------------ -/

/-- Counterexample to Claim C1: parsing the token stream of `1 + 2 * 3`
with the expression production does not build the claimed
`BinaryOp(Add, Number 1, BinaryOp(Multiply, Number 2, Number 3))` tree — it
stops after the first literal, yielding `Number "1"` and consuming one of
the five tokens, and the top-level parse of that stream fails with a
leftover-token error rather than producing any node. -/
theorem C1_counterexample :
    ParseExpression 10 (ParseState.new toksPrecedence 1) =
      .Ok ⟨toksPrecedence, 1, 2⟩ (Expression.Number 1 "1") ∧
    isBinaryOp (Expression.Number 1 "1") = false ∧
    toksPrecedence.length = 5 ∧
    parse_from_tokens 10 toksPrecedence 1 =
      .error (leftoverMessage (numTok "1")) :=
  ⟨rfl, rfl, rfl, rfl⟩

/-- Counterexample to Claim C2: the statement production has no generic-for
and no if-statement alternative — on token streams beginning with
`if x then ...` or `for x in ...` no alternative applies and the production
reports `NoMatch`. -/
theorem C2_counterexample :
    ParseStatement 20 (ParseState.new toksIfStatement 1) = .NoMatch ∧
    ParseStatement 20 (ParseState.new toksGenericFor 1) = .NoMatch :=
  ⟨rfl, rfl⟩

/-- Claim C2 (amended): the statement production tries exactly six
alternatives in source order — local-assignment, function-call-statement,
numeric-for, while-loop, repeat-loop, function-declaration — and each of
those forms is parsed by its alternative; generic-for and if-statement are
not among the alternatives, so `for ... in` and `if` streams report
`NoMatch`. -/
theorem C2_statement_dispatch :
    ParseStatement 20 (ParseState.new toksLocalAssign 1) =
      .Ok ⟨toksLocalAssign, 4, 3⟩
        (Statement.LocalAssignment 2
          (LocalAssignment.mk ["x"] [Expression.Number 1 "1"])) ∧
    ParseStatement 20 (ParseState.new toksCallOnly 1) =
      .Ok ⟨toksCallOnly, 3, 3⟩
        (Statement.FunctionCall 2
          (FunctionCall.mk (Expression.Name 1 "f") [])) ∧
    ParseStatement 20 (ParseState.new toksNumericFor 1) =
      .Ok ⟨toksNumericFor, 8, 4⟩
        (Statement.NumericFor 3
          (NumericFor.mk "i" (Expression.Number 1 "1")
            (Expression.Number 2 "2") none (Chunk.mk []))) ∧
    ParseStatement 20 (ParseState.new toksWhile 1) =
      .Ok ⟨toksWhile, 4, 3⟩
        (Statement.WhileLoop 2
          (WhileLoop.mk (Expression.Name 1 "x") (Chunk.mk []))) ∧
    ParseStatement 20 (ParseState.new toksRepeat 1) =
      .Ok ⟨toksRepeat, 3, 3⟩
        (Statement.RepeatLoop 2
          (RepeatLoop.mk (Expression.Name 1 "x") (Chunk.mk []))) ∧
    ParseStatement 20 (ParseState.new toksFunDecl 1) =
      .Ok ⟨toksFunDecl, 5, 2⟩
        (Statement.FunctionDeclaration 1
          (FunctionDeclaration.mk "f" (Chunk.mk []) [] false)) ∧
    ParseStatement 20 (ParseState.new toksIfStatement 1) = .NoMatch ∧
    ParseStatement 20 (ParseState.new toksGenericFor 1) = .NoMatch :=
  ⟨rfl, rfl, rfl, rfl, rfl, rfl, rfl, rfl⟩

/-- Counterexample to Claim C3: in the numeric-for production, a token
other than `,` or the keyword `do` after the two bounds makes the production
report `NoMatch`, not `Error` — both for a stray `;` and for
`for i = 1, 2, 3, 4 do end`, where the fourth bound's leading `,` is reached
where `do` is required. -/
theorem C3_counterexample :
    ParseNumericFor 20 (ParseState.new toksForSemi 1) = .NoMatch ∧
    ParseNumericFor 20 (ParseState.new toksForFour 1) = .NoMatch :=
  ⟨rfl, rfl⟩

/-- Claim C3 (amended): after the two mandatory bounds, a comma leads to a
third (step) bound and the keyword `do` means no step; any other next token
— another operator, a keyword other than `do`, or the end of the stream —
makes the production report `NoMatch` (not `Error`), and
`for i = 1, 2, 3, 4 do end` likewise reports `NoMatch` from the production,
so the top-level parse fails with a leftover-token error naming the `for`
keyword. -/
theorem C3_step_lookahead :
    ParseNumericFor 20 (ParseState.new toksForStep3 1) =
      .Ok ⟨toksForStep3, 10, 4⟩
        (NumericFor.mk "i" (Expression.Number 1 "1") (Expression.Number 2 "2")
          (some (Expression.Number 3 "3")) (Chunk.mk [])) ∧
    ParseNumericFor 20 (ParseState.new toksNumericFor 1) =
      .Ok ⟨toksNumericFor, 8, 3⟩
        (NumericFor.mk "i" (Expression.Number 1 "1") (Expression.Number 2 "2")
          none (Chunk.mk [])) ∧
    ParseNumericFor 20 (ParseState.new toksForSemi 1) = .NoMatch ∧
    ParseNumericFor 20 (ParseState.new toksForThen 1) = .NoMatch ∧
    ParseNumericFor 20 (ParseState.new toksForEos 1) = .NoMatch ∧
    ParseNumericFor 20 (ParseState.new toksForFour 1) = .NoMatch ∧
    parse_from_tokens 20 toksForFour 1 =
      .error (leftoverMessage (kwTok "for")) :=
  ⟨rfl, rfl, rfl, rfl, rfl, rfl, rfl⟩

/-- Claim C6: the operator tables are total and fixed — every
`BinaryOpKind` maps to exactly the stated precedence, every `UnaryOpKind`
maps to 11, and `is_right_associative` holds exactly for `Exponent` and
`Concat`. -/
theorem C6_operator_tables :
    BinaryOpKind.precedence .Concat = 8 ∧
    BinaryOpKind.precedence .Add = 9 ∧
    BinaryOpKind.precedence .Subtract = 9 ∧
    BinaryOpKind.precedence .Multiply = 10 ∧
    BinaryOpKind.precedence .Divide = 10 ∧
    BinaryOpKind.precedence .Exponent = 12 ∧
    (∀ u : UnaryOpKind, u.precedence = 11) ∧
    BinaryOpKind.is_right_associative .Exponent = true ∧
    BinaryOpKind.is_right_associative .Concat = true ∧
    BinaryOpKind.is_right_associative .Add = false ∧
    BinaryOpKind.is_right_associative .Subtract = false ∧
    BinaryOpKind.is_right_associative .Multiply = false ∧
    BinaryOpKind.is_right_associative .Divide = false ∧
    (∀ b : BinaryOpKind,
      b.is_right_associative = true ↔ b = .Exponent ∨ b = .Concat) := by
  refine ⟨rfl, rfl, rfl, rfl, rfl, rfl, ?_, rfl, rfl, rfl, rfl, rfl, rfl, ?_⟩
  · intro u; cases u <;> rfl
  · intro b; cases b <;> simp [BinaryOpKind.is_right_associative]

/-- Claim C7: the table-literal production accepts an optional trailing
separator without changing the result — the token streams of `\x7b1,2,3,\x7d`
and `\x7b1,2,3\x7d`, parsed from the same initial state, both succeed and
produce the same three-entry `TableLiteral` whose entries are all
positional (no key), in source order. -/
theorem C7_trailing_separator :
    ParseTableLiteral 10 (ParseState.new toksTableTrailing 1) =
      .Ok ⟨toksTableTrailing, 8, 4⟩ tableOneTwoThree ∧
    ParseTableLiteral 10 (ParseState.new toksTablePlain 1) =
      .Ok ⟨toksTablePlain, 7, 4⟩ tableOneTwoThree ∧
    tableOneTwoThree.items =
      [(none, Expression.Number 1 "1"), (none, Expression.Number 2 "2"),
        (none, Expression.Number 3 "3")] ∧
    tableOneTwoThree.items.length = 3 ∧
    tableOneTwoThree.items.map Prod.fst = [none, none, none] :=
  ⟨rfl, rfl, rfl, rfl, rfl⟩

/-- Claim C8: ids are issued by a process-wide counter advanced by one on
every `gen_id` allocation, so the ids issued during one run are pairwise
distinct, and the ids of a second run that starts at the counter the first
run left behind (two sequential parses in the same process) share no id
with the first run. -/
theorem C8_ids_unique_and_disjoint :
    ∀ (c k₁ k₂ : Nat),
      (idsIssued c k₁).Nodup ∧
      (idsIssued (counterAfter c k₁) k₂).Nodup ∧
      idsIssued c k₁ ∩ idsIssued (counterAfter c k₁) k₂ = [] ∧
      counterAfter c k₁ = c + k₁ := by
  intro c k₁ k₂
  rw [idsIssued_eq_range', idsIssued_eq_range', counterAfter_eq_add]
  refine ⟨List.nodup_range' c k₁, List.nodup_range' (c + k₁) k₂, ?_, rfl⟩
  rw [List.inter_eq_nil_iff_disjoint]
  intro a ha hb
  rw [List.mem_range'_1] at ha hb
  omega

/-- Claim C1 (amended): the expression production never produces a
`BinaryOp` node at all — every success wraps a number literal, function
call, name, or table literal. -/
theorem C1_expression_never_binary_op :
    ∀ (fuel : Nat) (s s' : ParseState) (e : Expression),
      ParseExpression fuel s = .Ok s' e → isBinaryOp e = false := by
  intro fuel s s' e h
  cases fuel with
  | zero => simp [ParseExpression, parsers] at h
  | succ f =>
    rw [show ParseExpression (f + 1) = ParseExpressionStep (parsers f)
      from rfl] at h
    unfold ParseExpressionStep at h
    cases h₁ : ParseNumber s <;> rw [h₁] at h
    case Ok s₁ v =>
      simp [withId, ParseState.genId, gen_id] at h
      rw [← h.2]
      rfl
    case Error m => exact absurd h (by simp)
    case NoMatch =>
      cases h₂ : ParseFunctionCallStep (parsers f) s <;> rw [h₂] at h
      case Ok s₁ v =>
        simp [withId, ParseState.genId, gen_id] at h
        rw [← h.2]
        rfl
      case Error m => exact absurd h (by simp)
      case NoMatch =>
        cases h₃ : ParseIdentifier s <;> rw [h₃] at h
        case Ok s₁ v =>
          simp [withId, ParseState.genId, gen_id] at h
          rw [← h.2]
          rfl
        case Error m => exact absurd h (by simp)
        case NoMatch =>
          cases h₄ : ParseTableLiteralStep (parsers f) s <;> rw [h₄] at h
          case Ok s₁ v =>
            simp [withId, ParseState.genId, gen_id] at h
            rw [← h.2]
            rfl
          case Error m => exact absurd h (by simp)
          case NoMatch => exact absurd h (by simp)

/-- Witness for Claim C1's amended theorem at the token stream of
`1 + 2 * 3`: the expression it yields is not a `BinaryOp` node. -/
theorem C1_witness : isBinaryOp (Expression.Number 1 "1") = false :=
  C1_expression_never_binary_op 10 (ParseState.new toksPrecedence 1)
    ⟨toksPrecedence, 1, 2⟩ (Expression.Number 1 "1") rfl

/-- Claim C4: the top-level entry point returns `Ok` only if the chunk
parser consumed the entire token stream, and a token left over after an
otherwise successful chunk parse produces an `Err` whose message names that
token. -/
theorem C4_entire_stream_consumed :
    ∀ (fuel : Nat) (tokens : List Token) (counter : Nat),
      (∀ chunk, parse_from_tokens fuel tokens counter = .ok chunk →
        ∃ s, ParseChunk fuel (ParseState.new tokens counter) = .Ok s chunk ∧
          s.peek = none) ∧
      (∀ s chunk token,
        ParseChunk fuel (ParseState.new tokens counter) = .Ok s chunk →
        s.peek = some token →
        parse_from_tokens fuel tokens counter =
          .error (leftoverMessage token)) := by
  intro fuel tokens counter
  constructor
  · intro chunk h
    unfold parse_from_tokens at h
    cases hc : ParseChunk fuel (ParseState.new tokens counter) <;>
      simp [hc] at h
    case Ok s c =>
      cases hp : s.peek <;> simp [hp] at h
      subst h
      exact ⟨s, rfl, hp⟩
  · intro s chunk token hc hp
    unfold parse_from_tokens
    rw [hc]
    simp [hp]

/-- Witness for Claim C4's theorem: parsing `f()` consumes all three
tokens, and parsing `f()` followed by a stray `)` fails with the message
naming the leftover `)` token. -/
theorem C4_witness :
    (∃ s, ParseChunk 10 (ParseState.new toksCallOnly 1) = .Ok s callChunk ∧
      s.peek = none) ∧
    parse_from_tokens 10 toksStray 1 =
      .error (leftoverMessage ⟨.CloseParen⟩) :=
  ⟨(C4_entire_stream_consumed 10 toksCallOnly 1).1 callChunk rfl,
    (C4_entire_stream_consumed 10 toksStray 1).2 ⟨toksStray, 3, 3⟩ callChunk
      ⟨.CloseParen⟩ rfl rfl⟩

/-- Claim C5: the top-level result is always `Ok` or `Err` (never a raw
`NoMatch`), and when the internal chunk parser reports `NoMatch` the entry
point converts it into the generic diagnostic message. -/
theorem C5_nomatch_converted :
    ∀ (fuel : Nat) (tokens : List Token) (counter : Nat),
      ((∃ chunk, parse_from_tokens fuel tokens counter = .ok chunk) ∨
        (∃ m, parse_from_tokens fuel tokens counter = .error m)) ∧
      (ParseChunk fuel (ParseState.new tokens counter) = .NoMatch →
        parse_from_tokens fuel tokens counter =
          .error "No error reported") := by
  intro fuel tokens counter
  constructor
  · cases h : parse_from_tokens fuel tokens counter with
    | ok chunk => exact .inl ⟨chunk, rfl⟩
    | error m => exact .inr ⟨m, rfl⟩
  · intro h
    unfold parse_from_tokens
    rw [h]

/-- Witness for Claim C5's theorem at fuel 0 (the exhausted level, where
the chunk parser reports `NoMatch`): the entry point converts it into the
generic diagnostic. -/
theorem C5_witness : parse_from_tokens 0 [] 1 = .error "No error reported" :=
  (C5_nomatch_converted 0 [] 1).2 rfl

/-- Claim C9: whenever the function-call production succeeds, the resulting
node's `name_expression` is a `Name` expression — the production only ever
builds the callee from the single parsed identifier. -/
theorem C9_callee_is_name :
    ∀ (fuel : Nat) (s s' : ParseState) (call : FunctionCall),
      ParseFunctionCall fuel s = .Ok s' call →
      ∃ i name, call.name_expression = Expression.Name i name := by
  intro fuel s s' call h
  unfold ParseFunctionCall ParseFunctionCallStep at h
  cases h₁ : ParseIdentifier s <;> simp [h₁] at h
  case Ok s₁ name =>
    cases h₂ : ParseToken .OpenParen s₁ <;> simp [h₂] at h
    case Ok s₂ t =>
      cases h₃ : DelimitedZeroOrMore (parsers fuel).expression
          (ParseOperator ",") false (s₂.tokens.length + 1) s₂ <;>
        simp [h₃] at h
      case Ok s₃ args =>
        cases h₄ : ParseToken .CloseParen s₃ <;> simp [h₄] at h
        case Ok s₄ t' =>
          simp [ParseState.genId, gen_id] at h
          rcases h with ⟨hs, hcall⟩
          subst hcall
          exact ⟨s₄.nextId, name, rfl⟩

/-- Witness for Claim C9's theorem at the token stream of `f()`: the callee
of the parsed call is a `Name` expression. -/
theorem C9_witness :
    ∃ i name,
      (FunctionCall.mk (Expression.Name 1 "f") []).name_expression =
        Expression.Name i name :=
  C9_callee_is_name 10 (ParseState.new toksCallOnly 1) ⟨toksCallOnly, 3, 2⟩
    (FunctionCall.mk (Expression.Name 1 "f") []) rfl

/-- Claim C10: for every state the chunk production (at any non-exhausted
fuel level) either succeeds or propagates an `Error` — it never reports
`NoMatch`, because `ZeroOrMore` converts the statement parser's `NoMatch`
into the end of the statement list; on the empty stream it succeeds with an
empty statement list. -/
theorem C10_chunk_never_nomatch :
    (∀ (f : Nat) (s : ParseState),
      (∃ s' chunk, ParseChunk (f + 1) s = .Ok s' chunk) ∨
      (∃ m, ParseChunk (f + 1) s = .Error m)) ∧
    ParseChunk 1 (ParseState.new [] 1) =
      .Ok (ParseState.new [] 1) (Chunk.mk []) := by
  constructor
  · intro f s
    rcases ZeroOrMore_ok_or_error (ParseStatementStep (parsers f))
        (s.tokens.length + 1) s with ⟨s', vs, h⟩ | ⟨m, h⟩
    · exact .inl ⟨s', Chunk.mk vs,
        by rw [show ParseChunk (f + 1) = ParseChunkStep (parsers f) from rfl]
           unfold ParseChunkStep
           rw [h]⟩
    · exact .inr ⟨m,
        by rw [show ParseChunk (f + 1) = ParseChunkStep (parsers f) from rfl]
           unfold ParseChunkStep
           rw [h]⟩
  · rfl

end Mab
